import Mathlib

/-!
Verification of the native-kubelet provider (`cmd/virtual-kubelet/internal/provider/native`):
a shallow embedding in Lean 4 of `image_manager.go` (image cache & puller) and `cluster.go`
(pod mirror), with theorems settling the specified properties.

Modelling conventions:
- Go errors are values of `GoErr` (a wrapped message); fallible steps whose outcome is
  produced by code outside these two files (registry copies, filesystem calls, cluster
  clients, the bitcask KV store) are supplied as explicit environment parameters, so every
  theorem quantifies over all outcomes of those collaborators.
- `time.Duration` is an `Int` count of nanoseconds (with 64-bit wrap-around where a
  multiplication occurs, mirroring Go's fixed-width arithmetic).
- Pointers that can be nil are `Option` values; a write through a nil pointer is a
  `GoPanic` propagated in `Except`.
-/

/-- Model of a Go `error` value: identified by its message string. -/
structure GoErr where
  msg : String
deriving DecidableEq, Repr

/-- Model of a Go runtime panic relevant here (nil-pointer dereference). -/
inductive GoPanic
  | nilPointerDeref
deriving DecidableEq, Repr

/-- Model of `*v1.Pod` as used by `cluster.go`: the provider treats the pod's status as one
field and everything else (metadata and spec) as opaque data it never touches, so the
non-status content is represented by two opaque string fields. -/
structure Pod where
  meta : String
  spec : String
  status : String
deriving DecidableEq, Repr

/-! ## Provider.GetPod (cluster.go:139-156)

`GetPod` reads the up-cluster pod from `p.initConfig.ResourceManager.GetPod` and the
down-cluster pod from `p.downPodLister.Pods(namespace).Get(name)`; each read's outcome
(the pod, or the error the client returned) is passed in. On success of both it executes
`pod.Status = down.Status` and returns the up-cluster pod. -/

def Provider.GetPod (upGet : Except GoErr Pod) (downGet : Except GoErr Pod) :
    Except GoErr Pod :=
  match upGet with
  | .error e => .error e
  | .ok pod =>
    match downGet with
    | .error e => .error e
    | .ok down => .ok { pod with status := down.status }

/-- Claim C3: for a pod present in both clusters, `GetPod` returns a pod whose status equals
the down-cluster pod's status exactly and whose every other field (metadata and spec) equals
the up-cluster pod's unchanged; if the down-cluster counterpart is absent (the lister
returns an error), `GetPod` returns that error instead of a pod. -/
theorem getPod_status_merge (up down : Pod) (e : GoErr) :
    Provider.GetPod (.ok up) (.ok down) =
      .ok { meta := up.meta, spec := up.spec, status := down.status }
    ∧ Provider.GetPod (.ok up) (.error e) = .error e := by
  constructor <;> rfl

/-! ## Provider.UpdatePod (cluster.go:108-121)

`UpdatePod` trims node-specific fields (`trimPod`, defined elsewhere in the package and
abstracted here as an arbitrary transformation), forwards the pod to the down cluster's
`Update`, and — when that call fails — logs the error and records it on the trace span,
then returns `nil` unconditionally (cluster.go:120). -/

/-- Observable outcome of one `UpdatePod` call: the returned error value and the error (if
any) recorded on the trace span via `span.SetStatus`. -/
structure UpdateResult where
  ret : Option GoErr
  spanStatus : Option GoErr
deriving DecidableEq, Repr

def Provider.UpdatePod (trimPod : Pod → Pod) (downUpdate : Pod → Except GoErr Pod)
    (pod : Pod) : UpdateResult :=
  match downUpdate (trimPod pod) with
  | .ok _ => { ret := none, spanStatus := none }
  | .error e => { ret := none, spanStatus := some e }

/-- Claim C9: for every pod and every outcome of the down-cluster update call,
`Provider.UpdatePod` returns nil; when the down-cluster update fails, the error is recorded
on the trace span but discarded, so a down-cluster rejection is never observable in
`UpdatePod`'s return value. -/
theorem updatePod_always_returns_nil (trimPod : Pod → Pod)
    (downUpdate : Pod → Except GoErr Pod) (pod : Pod) :
    (Provider.UpdatePod trimPod downUpdate pod).ret = none
    ∧ ∀ e, downUpdate (trimPod pod) = .error e →
        (Provider.UpdatePod trimPod downUpdate pod).spanStatus = some e := by
  constructor
  · unfold Provider.UpdatePod
    cases downUpdate (trimPod pod) <;> rfl
  · intro e he
    unfold Provider.UpdatePod
    rw [he]

def rejectingUpdate : Pod → Except GoErr Pod := fun _ => .error { msg := "rejected" }

def examplePod : Pod := { meta := "m", spec := "s", status := "st" }

/-- Witness for C9 at a concrete rejecting down cluster. -/
theorem updatePod_always_returns_nil_witness :
    (Provider.UpdatePod id rejectingUpdate examplePod).ret = none
    ∧ (Provider.UpdatePod id rejectingUpdate examplePod).spanStatus =
        some { msg := "rejected" } :=
  ⟨(updatePod_always_returns_nil id rejectingUpdate examplePod).1,
   (updatePod_always_returns_nil id rejectingUpdate examplePod).2 { msg := "rejected" } rfl⟩

/-! ## Provider.GetContainerLogs (cluster.go:196-235)

The function builds a `*v1.PodLogOptions` literal in which `SinceTime` and `SinceSeconds`
are never allocated (they remain nil pointers), then executes
`*options.SinceTime = metav1.Time{...}` when `opts.SinceTime` is non-zero and
`*options.SinceSeconds = int64(sinceSeconds)` when `opts.SinceSeconds` is non-zero —
writes through nil pointers. `opts.SinceTime` (a `time.Time`) is modelled as a `Nat` whose
zero value satisfies `IsZero`. -/

structure ContainerLogOpts where
  tail : Int
  limitBytes : Int
  timestamps : Bool
  follow : Bool
  previous : Bool
  sinceSeconds : Int
  sinceTime : Nat
deriving DecidableEq, Repr

structure PodLogOptions where
  container : String
  timestamps : Bool
  follow : Bool
  previous : Bool
  tailLines : Option Int
  limitBytes : Option Int
  sinceTime : Option Nat
  sinceSeconds : Option Int
deriving DecidableEq, Repr

/-- A Go assignment `*p = v`: panics when `p` is nil, otherwise updates the pointee. -/
def derefAssign {α : Type} (p : Option α) (v : α) : Except GoPanic (Option α) :=
  match p with
  | none => .error .nilPointerDeref
  | some _ => .ok (some v)

def Provider.GetContainerLogs (downStream : PodLogOptions → Except GoErr Unit)
    (containerName : String) (opts : ContainerLogOpts) :
    Except GoPanic (Except GoErr Unit) :=
  let sinceSeconds := opts.sinceSeconds
  -- the literal at cluster.go:204-208 plus the two pointer-allocating conditional writes
  -- (TailLines, LimitBytes), which cannot fault
  let options : PodLogOptions :=
    { container := containerName, timestamps := opts.timestamps, follow := opts.follow,
      previous := false,
      tailLines := if opts.tail ≠ 0 then some opts.tail else none,
      limitBytes := if opts.limitBytes ≠ 0 then some opts.limitBytes else none,
      sinceTime := none, sinceSeconds := none }
  match (if opts.sinceTime ≠ 0 then derefAssign options.sinceTime opts.sinceTime
         else .ok options.sinceTime) with
  | .error p => .error p
  | .ok st =>
    let options := { options with sinceTime := st }
    match (if sinceSeconds ≠ 0 then derefAssign options.sinceSeconds sinceSeconds
           else .ok options.sinceSeconds) with
    | .error p => .error p
    | .ok ss =>
      let options := { options with sinceSeconds := ss }
      let options := if opts.previous then { options with previous := opts.previous } else options
      let options := if opts.follow then { options with follow := opts.follow } else options
      .ok (downStream options)

/-- Claim C10: whenever `opts.SinceTime` or `opts.SinceSeconds` is non-zero,
`GetContainerLogs` writes through a nil pointer and panics; when both are zero these writes
are unreachable and the call proceeds to the down-cluster log stream without a nil
dereference. -/
theorem getContainerLogs_nil_deref (downStream : PodLogOptions → Except GoErr Unit)
    (containerName : String) (opts : ContainerLogOpts) :
    ((opts.sinceTime ≠ 0 ∨ opts.sinceSeconds ≠ 0) →
      Provider.GetContainerLogs downStream containerName opts = .error .nilPointerDeref)
    ∧ (opts.sinceTime = 0 → opts.sinceSeconds = 0 →
      ∃ plo, Provider.GetContainerLogs downStream containerName opts = .ok (downStream plo)) := by
  constructor
  · intro h
    unfold Provider.GetContainerLogs
    by_cases h1 : opts.sinceTime = 0
    · have h2 : opts.sinceSeconds ≠ 0 := by
        rcases h with h | h
        · exact absurd h1 h
        · exact h
      simp [h1, h2, derefAssign]
    · simp [h1, derefAssign]
  · intro h1 h2
    unfold Provider.GetContainerLogs
    simp only [h1, h2, ne_eq, not_true_eq_false, if_false, ite_false]
    exact ⟨_, rfl⟩

def okStream : PodLogOptions → Except GoErr Unit := fun _ => .ok ()

def sinceTimeOpts : ContainerLogOpts :=
  { tail := 0, limitBytes := 0, timestamps := false, follow := false, previous := false,
    sinceSeconds := 0, sinceTime := 1700000000 }

def zeroSinceOpts : ContainerLogOpts :=
  { tail := 10, limitBytes := 0, timestamps := true, follow := false, previous := false,
    sinceSeconds := 0, sinceTime := 0 }

/-- Witness for C10: a non-zero `SinceTime` panics; all-zero since-fields do not. -/
theorem getContainerLogs_nil_deref_witness :
    Provider.GetContainerLogs okStream "c" sinceTimeOpts = .error .nilPointerDeref
    ∧ ∃ plo, Provider.GetContainerLogs okStream "c" zeroSinceOpts = .ok (okStream plo) :=
  ⟨(getContainerLogs_nil_deref okStream "c" sinceTimeOpts).1 (Or.inl (by decide)),
   (getContainerLogs_nil_deref okStream "c" zeroSinceOpts).2 (by decide) (by decide)⟩

/-! ## Image destination path (image_manager.go:306-322)

`imageDestDir` strips transport prefixes from the image reference with a
`strings.NewReplacer` built from `transports.ListNames()` plus `"//"` (each mapped to the
empty string), sanitizes the result with the external `filenamify` library
(replacement `"-"`), joins it under the cache root with a `.tar.gz` suffix, and prefixes
the destination with the `docker-archive` transport name. -/

/-- Model of `transports.ListNames()` from the external containers/image v5 library: the
sorted names of the transports registered by the `alltransports` import. -/
def transportsListNames : List String :=
  ["atomic", "containers-storage", "dir", "docker", "docker-archive", "docker-daemon",
   "oci", "oci-archive", "sif", "tarball"]

/-- Whether `pat` matches at the head of `s`. -/
def matchesAt : List Char → List Char → Bool
  | [], _ => true
  | _ :: _, [] => false
  | p :: ps, c :: cs => p == c && matchesAt ps cs

/-- Model of Go's `strings.NewReplacer(old1, "", old2, "", ...).Replace`: scan left to
right; at each position the first pattern (in argument order) that matches is replaced by
the empty string and the scan resumes after it. Structured with a fuel argument (each step
consumes at least one character, so `s.length` fuel always suffices). -/
def goReplaceEmptyAux (pats : List String) : Nat → List Char → List Char
  | _, [] => []
  | 0, s => s
  | fuel + 1, c :: rest =>
    match pats.find? (fun p => matchesAt p.data (c :: rest)) with
    | some p => goReplaceEmptyAux pats fuel (rest.drop (p.data.length - 1))
    | none => c :: goReplaceEmptyAux pats fuel rest

def goReplaceEmpty (pats : List String) (s : List Char) : List Char :=
  goReplaceEmptyAux pats s.length s

/-- The reserved-filename character class of the filenamify library:
`[<>:"/\\|?*\x00-\x1F]`. -/
def reservedChar (c : Char) : Bool :=
  c == '<' || c == '>' || c == ':' || c == '"' || c == '/' || c == '\\' ||
    c == '|' || c == '?' || c == '*' || decide (c.toNat < 32)

/-- Collapse every run of consecutive dashes to a single dash. -/
def collapseRepeatedDash (l : List Char) : List Char :=
  l.foldr (fun c acc => if c == '-' && acc.head? == some '-' then acc else c :: acc) []

def dropLeadingDash (l : List Char) : List Char :=
  l.dropWhile (fun c => c == '-')

/-- Remove dashes from both ends. -/
def stripOuterDash (l : List Char) : List Char :=
  (dropLeadingDash (dropLeadingDash l).reverse).reverse

def dropTrailingPeriods (l : List Char) : List Char :=
  (l.reverse.dropWhile (fun c => c == '.')).reverse

/-- Windows reserved device names (`con`, `prn`, `aux`, `nul`, `com0`-`com9`,
`lpt0`-`lpt9`), case-insensitively. -/
def isWindowsReservedName (l : List Char) : Bool :=
  match l.map Char.toLower with
  | ['c', 'o', 'n'] => true
  | ['p', 'r', 'n'] => true
  | ['a', 'u', 'x'] => true
  | ['n', 'u', 'l'] => true
  | ['c', 'o', 'm', d] => d.isDigit
  | ['l', 'p', 't', d] => d.isDigit
  | _ => false

/-- Model of the external `flytam/filenamify` library's `Filenamify` with
`Options{Replacement: "-"}`: replace each reserved character with `-`, drop trailing
periods, collapse repeated replacements, strip the replacement from both ends, suffix
Windows reserved names, and truncate to the 100-character limit. With replacement `"-"`
(which contains no reserved character) the call cannot return an error. -/
def filenamifyDash (s : String) : String :=
  let replaced := s.data.map (fun c => if reservedChar c then '-' else c)
  let trimmed := dropTrailingPeriods replaced
  let collapsed := collapseRepeatedDash trimmed
  let stripped := if 1 < collapsed.length then stripOuterDash collapsed else collapsed
  let named := if isWindowsReservedName stripped then stripped ++ ['-'] else stripped
  String.mk (named.take 100)

/-- Model of Go `filepath.Join` for the clean inputs used here (no empty segments with
both sides nonempty, no redundant separators). -/
def filepathJoin (a b : String) : String :=
  if a = "" then b else if b = "" then a else a ++ "/" ++ b

/-- `imageDestDir(path, imageName)` from image_manager.go:306-322. Returns the
transport-qualified destination (`docker-archive:` is `archive.Transport.Name()`) and the
plain file path. The Go function's error return can only arise from `Filenamify`, which
cannot fail for replacement `"-"`, so the model is total. -/
def imageDestDir (path : String) (imageName : String) : String × String :=
  let names := transportsListNames ++ ["//"]
  let replaced := String.mk (goReplaceEmpty names imageName.data)
  let s := filenamifyDash replaced
  let filep := filepathJoin path s ++ ".tar.gz"
  ("docker-archive:" ++ filep, filep)

example :
    imageDestDir "/cache/images" "docker://registry/example:v1" =
      ("docker-archive:/cache/images/registry-example-v1.tar.gz",
       "/cache/images/registry-example-v1.tar.gz") := by decide

/-! ## ImageManager.PullImage, single-caller path (image_manager.go:74-179)

The sequential model of one `PullImage` call. Outcomes of the external collaborators
(reference parsing, directory creation, the signature-policy constructors, `os.Remove`,
`os.OpenFile` for the log sink, the `cc.Image` network copy, and `bitcask.Put`) are
supplied in a `PullEnv`; the concurrent-session branch (`m.pulling`) is covered separately
by the interleaving model below, so this model describes a call that finds no session in
flight. The KV store is a key-value association list. -/

structure PullImageOpts where
  /-- `opts.SrcImage`, e.g. `docker://registry/example:v1`. -/
  srcImage : String
  /-- `opts.Timeout` in nanoseconds (`time.Duration`); `0` means unset. The auth/TLS
  fields only parameterize the copy, whose outcome `PullEnv` supplies, so they are
  omitted. -/
  timeout : Int
deriving DecidableEq, Repr

/-- Outcome of the `os.Remove(dir)` call inside `deleteExistImage`. -/
inductive RemoveOutcome
  | removed
  | notExistErr
  | otherErr (e : GoErr)
deriving DecidableEq, Repr

/-- `deleteExistImage` (image_manager.go:171-179): an `os.IsNotExist` failure is treated
as success; any other failure is returned. -/
def deleteExistImage : RemoveOutcome → Option GoErr
  | .removed => none
  | .notExistErr => none
  | .otherErr e => some e

/-- Environment of one `PullImage` call: outcomes of its external effects, in source
order. -/
structure PullEnv where
  /-- `alltransports.ParseImageName(name)` (line 78). -/
  parseSrcErr : Option GoErr
  /-- `createDestDir(filepath.Dir(imageDir))` (line 89). -/
  createDirErr : Option GoErr
  /-- `alltransports.ParseImageName(dest)` (line 92). -/
  parseDestErr : Option GoErr
  /-- `signature.DefaultPolicy(nil)` (line 106). -/
  policyErr : Option GoErr
  /-- `signature.NewPolicyContext(policy)` (line 111). -/
  policyCtxErr : Option GoErr
  /-- `os.Remove(imageDir)` inside `deleteExistImage` (line 148). -/
  removeOutcome : RemoveOutcome
  /-- `os.OpenFile` for the pull log sink (line 150). -/
  openFileErr : Option GoErr
  /-- `cc.Image` — the network copy (line 157). -/
  copyErr : Option GoErr
  /-- `m.imageDb.Put` (line 168). -/
  putErr : Option GoErr
deriving DecidableEq, Repr

def nsPerSecond : Int := 1000000000

def nsPerMinute : Int := 60 * nsPerSecond

/-- Wrap an integer to Go's signed 64-bit range, as `time.Duration` multiplication does. -/
def wrap64 (n : Int) : Int := (n + 2 ^ 63) % 2 ^ 64 - 2 ^ 63

/-- Observable outcome of one `PullImage` call. -/
structure PullResult where
  /-- The returned `error`. -/
  ret : Option GoErr
  /-- The KV store contents after the call. -/
  db : List (String × String)
  /-- Whether the `cc.Image` network copy was invoked. -/
  copyAttempted : Bool
  /-- The `context.WithTimeout` bound in force at the copy, when it was invoked. -/
  copyCtxTimeout : Option Int
deriving DecidableEq, Repr

def ImageManager.PullImage (imagePath : String) (maxTimeout : Int)
    (db0 : List (String × String)) (env : PullEnv) (opts : PullImageOpts) : PullResult :=
  let name := opts.srcImage
  match env.parseSrcErr with
  | some e => ⟨some e, db0, false, none⟩
  | none =>
    let dest := (imageDestDir imagePath name).1
    match env.createDirErr with
    | some e => ⟨some e, db0, false, none⟩
    | none =>
      match env.parseDestErr with
      | some e => ⟨some e, db0, false, none⟩
      | none =>
        match env.policyErr with
        | some e => ⟨some e, db0, false, none⟩
        | none =>
          match env.policyCtxErr with
          | some e => ⟨some e, db0, false, none⟩
          | none =>
            -- lines 116-119: default the timeout, then bound the copy's context
            let timeout : Int :=
              if opts.timeout = 0 then wrap64 (maxTimeout * nsPerSecond) else opts.timeout
            -- line 124: cache hit returns nil immediately
            if db0.any (fun kv => kv.1 == name) then ⟨none, db0, false, none⟩
            else
              -- line 148: `err = deleteExistImage(imageDir)` — the result is overwritten
              -- by the assignment at line 150 without ever being checked
              let _removeErr := deleteExistImage env.removeOutcome
              match env.openFileErr with
              | some e => ⟨some e, db0, false, none⟩
              | none =>
                match env.copyErr with
                | some e => ⟨some e, db0, true, some timeout⟩
                | none =>
                  match env.putErr with
                  | some e => ⟨some e, db0, true, some timeout⟩
                  | none => ⟨none, db0 ++ [(name, dest)], true, some timeout⟩

/-- An environment in which every external step succeeds. -/
def allOkPullEnv : PullEnv :=
  { parseSrcErr := none, createDirErr := none, parseDestErr := none, policyErr := none,
    policyCtxErr := none, removeOutcome := .removed, openFileErr := none,
    copyErr := none, putErr := none }

def examplePullOpts : PullImageOpts := { srcImage := "docker://registry/example:v1", timeout := 0 }

/-- Counterexample to claim C5 as stated: after a successful pull of
`docker://registry/example:v1` the KV store holds no entry under the transport-stripped
key `registry/example:v1` — the recorded key is the raw reference. -/
theorem pullImage_db_key_not_stripped :
    (ImageManager.PullImage "/cache/images" 10 [] allOkPullEnv examplePullOpts).ret = none
    ∧ ((ImageManager.PullImage "/cache/images" 10 [] allOkPullEnv examplePullOpts).db.any
        (fun kv => kv.1 == "registry/example:v1")) = false := by
  constructor <;> rfl

/-- Claim C5 as amended: after a successful pull of `docker://registry/example:v1` the KV
store holds exactly one entry, keyed by the raw reference string
`docker://registry/example:v1` (image_manager.go:168 stores `name = opts.SrcImage`
unchanged), whose value is the transport-qualified sanitized destination
`docker-archive:<path>/registry-example-v1.tar.gz`. -/
theorem pullImage_db_entry_raw_key :
    (ImageManager.PullImage "/cache/images" 10 [] allOkPullEnv examplePullOpts).db =
      [("docker://registry/example:v1",
        "docker-archive:/cache/images/registry-example-v1.tar.gz")]
    ∧ (ImageManager.PullImage "/cache/images" 10 [] allOkPullEnv examplePullOpts).ret = none := by
  constructor <;> rfl

/-- Counterexample to claim C6 as stated: with `max_timeout = 1` and `opts.Timeout` unset,
the context deadline applied to the copy is 1 second — not the 1 minute the claim's
minutes-scale reading requires. -/
theorem pullImage_timeout_seconds_not_minutes :
    (ImageManager.PullImage "/cache/images" 1 [] allOkPullEnv examplePullOpts).copyCtxTimeout
      = some (1 * nsPerSecond)
    ∧ (1 : Int) * nsPerSecond ≠ 1 * nsPerMinute := by
  constructor
  · rfl
  · decide

/-- Claim C6 as amended: for every `PullImage` call whose `opts.Timeout` is zero, the
effective timeout applied to the image copy is the configured maximum interpreted in
seconds (`time.Duration(m.max) * time.Second`, image_manager.go:117), and the copy is
bounded by a context deadline of that duration. -/
theorem pullImage_default_timeout_seconds (imagePath : String) (maxTimeout : Int)
    (db0 : List (String × String)) (env : PullEnv) (opts : PullImageOpts)
    (ht : opts.timeout = 0)
    (hc : (ImageManager.PullImage imagePath maxTimeout db0 env opts).copyAttempted = true) :
    (ImageManager.PullImage imagePath maxTimeout db0 env opts).copyCtxTimeout =
      some (wrap64 (maxTimeout * nsPerSecond)) := by
  revert hc
  unfold ImageManager.PullImage
  repeat' split
  all_goals first
    | (simp [ht]; done)
    | (intro hc
       by_cases hdb : (db0.any fun kv => kv.1 == opts.srcImage) = true <;>
         simp [ht, hdb] at hc ⊢)

/-- Witness for C6's amended theorem: `max_timeout = 2` yields a 2-second copy deadline. -/
theorem pullImage_default_timeout_seconds_witness :
    (ImageManager.PullImage "/cache/images" 2 [] allOkPullEnv examplePullOpts).copyCtxTimeout =
      some (wrap64 (2 * nsPerSecond)) :=
  pullImage_default_timeout_seconds "/cache/images" 2 [] allOkPullEnv examplePullOpts rfl
    (by rfl)

/-- An environment in which `os.Remove(imageDir)` fails with a non-`IsNotExist` error and
every later step succeeds. -/
def removeFailsEnv : PullEnv :=
  { allOkPullEnv with
    removeOutcome := .otherErr
      { msg := "remove /cache/images/registry-example-v1.tar.gz: permission denied" } }

/-- Claim C8 (code bug, image_manager.go:148-150): `err = deleteExistImage(imageDir)`
produces a filesystem error, but the very next statement overwrites `err` without it ever
being checked, so `PullImage` completes with a nil return — the error is silently
swallowed, contradicting the claim that every filesystem error inside `PullImage` is
surfaced. -/
theorem pullImage_swallowed_remove_error :
    deleteExistImage removeFailsEnv.removeOutcome =
      some { msg := "remove /cache/images/registry-example-v1.tar.gz: permission denied" }
    ∧ (ImageManager.PullImage "/cache/images" 10 [] removeFailsEnv examplePullOpts).ret = none
    ∧ (ImageManager.PullImage "/cache/images" 10 [] removeFailsEnv examplePullOpts).db =
        [("docker://registry/example:v1",
          "docker-archive:/cache/images/registry-example-v1.tar.gz")] :=
  ⟨rfl, rfl, rfl⟩

/-- Claim C4: every erroring `PullImage` call (reference parsing, log-sink creation, the
image copy, or any other failing step) leaves the KV store unchanged — no ImageRecord is
written for the reference — and a subsequent call for the same reference whose early
steps succeed proceeds to attempt a fresh network copy rather than failing immediately. -/
theorem pullImage_error_no_record (imagePath : String) (maxTimeout : Int)
    (db0 : List (String × String)) (env1 env2 : PullEnv) (opts : PullImageOpts)
    (herr : (ImageManager.PullImage imagePath maxTimeout db0 env1 opts).ret.isSome = true)
    (h1 : env2.parseSrcErr = none) (h2 : env2.createDirErr = none)
    (h3 : env2.parseDestErr = none) (h4 : env2.policyErr = none)
    (h5 : env2.policyCtxErr = none) (h6 : env2.openFileErr = none)
    (hnot : (db0.any fun kv => kv.1 == opts.srcImage) = false) :
    (ImageManager.PullImage imagePath maxTimeout db0 env1 opts).db = db0
    ∧ (ImageManager.PullImage imagePath maxTimeout db0 env2 opts).copyAttempted = true := by
  constructor
  · have hd : (ImageManager.PullImage imagePath maxTimeout db0 env1 opts).db = db0
        ∨ (ImageManager.PullImage imagePath maxTimeout db0 env1 opts).ret = none := by
      unfold ImageManager.PullImage
      repeat' split
      all_goals first
        | (simp; done)
        | (by_cases hdb : (db0.any fun kv => kv.1 == opts.srcImage) = true <;> simp [hdb])
    rcases hd with hd | hd
    · exact hd
    · rw [hd] at herr
      simp at herr
  · unfold ImageManager.PullImage
    cases hce : env2.copyErr <;> cases hpe : env2.putErr <;>
      simp [h1, h2, h3, h4, h5, h6, hnot, hce, hpe]

/-- An environment in which the network copy fails and everything else succeeds. -/
def copyFailsEnv : PullEnv :=
  { allOkPullEnv with copyErr := some { msg := "pull error" } }

/-- Witness for C4: a copy failure leaves an empty store, and the retry reaches the copy. -/
theorem pullImage_error_no_record_witness :
    (ImageManager.PullImage "/cache/images" 10 [] copyFailsEnv examplePullOpts).db = []
    ∧ (ImageManager.PullImage "/cache/images" 10 [] allOkPullEnv
        examplePullOpts).copyAttempted = true :=
  pullImage_error_no_record "/cache/images" 10 [] copyFailsEnv allOkPullEnv examplePullOpts
    (by rfl) rfl rfl rfl rfl rfl rfl (by rfl)

/-! ## Provider.CreatePod (cluster.go:67-106)

`CreatePod` computes the pod's Secret/ConfigMap dependency sets (`getSecrets` /
`getConfigMaps`, abstracted as name lists), then runs
`wait.PollImmediateUntil(100µs, cond, timeCtx.Done())` under a 10-second deadline. The
condition calls `p.syncSecret` / `p.syncConfigMap` (defined elsewhere in the package;
their outcomes are parameters here) for each dependency and returns `(false, err)` on the
first failure, `(true, nil)` when all succeed. On any poll error `CreatePod` returns it
before `p.processManager.create` or the down-cluster `Create` runs. -/

/-- `wait.ErrWaitTimeout` from k8s.io/apimachinery. -/
def errWaitTimeout : GoErr := { msg := "timed out waiting for the condition" }

/-- `wait.PollImmediateUntil`: run the condition immediately; a condition error aborts
with that error, `done` ends the wait, and otherwise the poll retries until the deadline.
The 10s/100µs deadline-to-interval budget is abstracted as retry fuel. (In `CreatePod` the
condition never returns `(false, nil)`, so the fuel branch is vacuous there.) -/
def pollImmediateUntil (cond : Bool × Option GoErr) : Nat → Option GoErr
  | 0 =>
    match cond with
    | (_, some e) => some e
    | (true, none) => none
    | (false, none) => some errWaitTimeout
  | fuel + 1 =>
    match cond with
    | (_, some e) => some e
    | (true, none) => none
    | (false, none) => pollImmediateUntil cond fuel

/-- The condition function at cluster.go:78-92: sync every referenced Secret, then every
referenced ConfigMap; the first sync error aborts with `(false, err)`. -/
def syncCondition (secrets configMaps : List String)
    (syncSecret syncConfigMap : String → Option GoErr) : Bool × Option GoErr :=
  match secrets.findSome? syncSecret with
  | some e => (false, some e)
  | none =>
    match configMaps.findSome? syncConfigMap with
    | some e => (false, some e)
    | none => (true, none)

/-- Observable outcome of one `CreatePod` call. -/
structure CreateResult where
  /-- The returned `error`. -/
  ret : Option GoErr
  /-- The down-cluster pods after the call. -/
  downPods : List Pod
  /-- Whether `p.processManager.create` was invoked. -/
  processCreateCalled : Bool
deriving DecidableEq, Repr

def Provider.CreatePod (secrets configMaps : List String)
    (syncSecret syncConfigMap : String → Option GoErr) (fuel : Nat)
    (downCreateErr : Option GoErr) (downPods0 : List Pod) (pod : Pod) : CreateResult :=
  match pollImmediateUntil (syncCondition secrets configMaps syncSecret syncConfigMap) fuel with
  | some e => ⟨some e, downPods0, false⟩
  | none =>
    -- cluster.go:98: fire-and-forget handoff to the process manager
    match downCreateErr with
    | some e => ⟨some e, downPods0, true⟩
    | none => ⟨none, downPods0 ++ [pod], true⟩

/-- If some element of the list maps to an error, `findSome?` finds one. -/
theorem findSomeIsSomeOfMem {α β : Type} (f : α → Option β) (x : α) :
    ∀ l : List α, x ∈ l → f x ≠ none → (l.findSome? f).isSome = true := by
  intro l
  induction l with
  | nil => intro h; cases h
  | cons a as ih =>
    intro hmem hne
    cases hfa : f a with
    | some b => simp [List.findSome?_cons, hfa]
    | none =>
      rw [List.mem_cons] at hmem
      cases hmem with
      | inl heq => rw [heq] at hne; exact absurd hfa hne
      | inr hmem => simpa [List.findSome?_cons, hfa] using ih hmem hne

/-- Claim C2: if any Secret or ConfigMap in the pod's dependency set cannot be synced into
the down cluster (its sync call fails), `CreatePod` returns an error, the process manager
is never invoked, and no pod object is created in the down cluster. -/
theorem createPod_dependency_atomicity (secrets configMaps : List String)
    (syncSecret syncConfigMap : String → Option GoErr) (fuel : Nat)
    (downCreateErr : Option GoErr) (downPods0 : List Pod) (pod : Pod)
    (h : (∃ s ∈ secrets, syncSecret s ≠ none) ∨ (∃ c ∈ configMaps, syncConfigMap c ≠ none)) :
    (Provider.CreatePod secrets configMaps syncSecret syncConfigMap fuel downCreateErr
      downPods0 pod).ret.isSome = true
    ∧ (Provider.CreatePod secrets configMaps syncSecret syncConfigMap fuel downCreateErr
        downPods0 pod).downPods = downPods0
    ∧ (Provider.CreatePod secrets configMaps syncSecret syncConfigMap fuel downCreateErr
        downPods0 pod).processCreateCalled = false := by
  have hcond : ∃ e, syncCondition secrets configMaps syncSecret syncConfigMap =
      (false, some e) := by
    cases hs : secrets.findSome? syncSecret with
    | some e => exact ⟨e, by simp [syncCondition, hs]⟩
    | none =>
      rcases h with ⟨s, hsm, hne⟩ | ⟨c, hcm, hne⟩
      · have hsome := findSomeIsSomeOfMem syncSecret s secrets hsm hne
        rw [hs] at hsome
        simp at hsome
      · have hsome := findSomeIsSomeOfMem syncConfigMap c configMaps hcm hne
        cases hc : configMaps.findSome? syncConfigMap with
        | none =>
          rw [hc] at hsome
          simp at hsome
        | some e => exact ⟨e, by simp [syncCondition, hs, hc]⟩
  obtain ⟨e, he⟩ := hcond
  have hp : pollImmediateUntil
      (syncCondition secrets configMaps syncSecret syncConfigMap) fuel = some e := by
    rw [he]
    cases fuel <;> rfl
  simp [Provider.CreatePod, hp]

def failingSyncSecret : String → Option GoErr := fun s => some { msg := "sync " ++ s }

def okSyncConfigMap : String → Option GoErr := fun _ => none

/-- Witness for C2: a secret whose sync always fails aborts `CreatePod` with an error and
leaves the down cluster untouched. -/
theorem createPod_dependency_atomicity_witness :
    (Provider.CreatePod ["s1"] [] failingSyncSecret okSyncConfigMap 100 none []
      examplePod).ret.isSome = true
    ∧ (Provider.CreatePod ["s1"] [] failingSyncSecret okSyncConfigMap 100 none []
        examplePod).downPods = []
    ∧ (Provider.CreatePod ["s1"] [] failingSyncSecret okSyncConfigMap 100 none []
        examplePod).processCreateCalled = false :=
  createPod_dependency_atomicity ["s1"] [] failingSyncSecret okSyncConfigMap 100 none []
    examplePod (Or.inl ⟨"s1", by simp, by simp [failingSyncSecret]⟩)

/-! ## ImageManager.UnzipImage (image_manager.go:195-297)

`UnzipImage` unpacks the cached archive into `<workdir>/image` via `cc.Image`, reads and
deserializes `manifest.json`, and walks the manifest's layers in order: a
`MediaTypeDockerSchema2LayerGzip` layer is untarred into `<workdir>/container`; any other
media type aborts with `fmt.Errorf("unsupport image %s layer %s media type:%s", ...)`.
Outcomes of the pre-loop steps and of `UnTar` (defined elsewhere in the package) are
environment parameters. -/

/-- An OCI content digest, e.g. `sha256:abc...`; `Encoded()` is the hex part after the
separator. -/
structure Digest where
  algorithm : String
  hex : String
deriving DecidableEq, Repr

def Digest.encoded (d : Digest) : String := d.hex

/-- A manifest layer descriptor (`v1.Descriptor`): the fields `UnzipImage` reads. -/
structure Descriptor where
  mediaType : String
  digest : Digest
deriving DecidableEq, Repr

structure Manifest where
  layers : List Descriptor
deriving DecidableEq, Repr

/-- `images.MediaTypeDockerSchema2LayerGzip` from the containerd library. -/
def mediaTypeDockerSchema2LayerGzip : String :=
  "application/vnd.docker.image.rootfs.diff.tar.gzip"

def getLayerFilePath (imageDir : String) (d : Digest) : String :=
  filepathJoin imageDir d.encoded

def containerWorkDir (workdir : String) : String := filepathJoin workdir "container"

def getImageWorkDir (workdir : String) : String := filepathJoin workdir "image"

def manifestDir (workdir : String) : String := filepathJoin workdir "manifest.json"

/-- The layer loop at image_manager.go:264-278. Returns the error outcome together with
the list of layer file paths whose `UnTar` was invoked. -/
def unzipLayers (image : String) (imageDir : String) (workdir : String)
    (unTar : String → String → Option GoErr) : List Descriptor → Option GoErr × List String
  | [] => (none, [])
  | layer :: rest =>
    if layer.mediaType = mediaTypeDockerSchema2LayerGzip then
      match unTar (getLayerFilePath imageDir layer.digest) (containerWorkDir workdir) with
      | some e => (some e, [getLayerFilePath imageDir layer.digest])
      | none =>
        let r := unzipLayers image imageDir workdir unTar rest
        (r.1, getLayerFilePath imageDir layer.digest :: r.2)
    else
      (some { msg := "unsupport image " ++ image ++ " layer " ++ layer.digest.encoded ++
        " media type:" ++ layer.mediaType }, [])

/-- Environment of one `UnzipImage` call: outcomes of its external effects, in source
order. -/
structure UnzipEnv where
  /-- `signature.DefaultPolicy(nil)` (line 204). -/
  policyErr : Option GoErr
  /-- `signature.NewPolicyContext(policy)` (line 209). -/
  policyCtxErr : Option GoErr
  /-- `createDestDir(imageDir)` (line 215). -/
  createDirErr : Option GoErr
  /-- `directory.Transport.ParseReference(imageDir)` (line 219). -/
  parseDestErr : Option GoErr
  /-- `m.imageDb.Get([]byte(dockerImageName(image)))` (line 225). -/
  dbGetResult : Except GoErr String
  /-- `alltransports.ParseImageName(string(imagePath))` (line 231). -/
  parseSrcErr : Option GoErr
  /-- `cc.Image` — unpacking the archive into the image dir (line 240). -/
  copyErr : Option GoErr
  /-- `ioutil.ReadFile(manifestDir(imageDir))` (line 251). -/
  readManifestErr : Option GoErr
  /-- `json.Unmarshal` of the manifest (line 258). -/
  unmarshalResult : Except GoErr Manifest
  /-- `UnTar(layerFile, containerDir)` per layer (line 267). -/
  unTar : String → String → Option GoErr

def ImageManager.UnzipImage (env : UnzipEnv) (image : String) (workdir : String) :
    Option GoErr × List String :=
  let imageDir := getImageWorkDir workdir
  match env.policyErr with
  | some e => (some e, [])
  | none =>
    match env.policyCtxErr with
    | some e => (some e, [])
    | none =>
      match env.createDirErr with
      | some e => (some e, [])
      | none =>
        match env.parseDestErr with
        | some e => (some e, [])
        | none =>
          match env.dbGetResult with
          | .error e => (some e, [])
          | .ok _imagePath =>
            match env.parseSrcErr with
            | some e => (some e, [])
            | none =>
              match env.copyErr with
              | some e => (some e, [])
              | none =>
                match env.readManifestErr with
                | some e => (some e, [])
                | none =>
                  match env.unmarshalResult with
                  | .error e => (some e, [])
                  | .ok manifest =>
                    unzipLayers image imageDir workdir env.unTar manifest.layers

/-- An environment whose pre-loop steps all succeed, deserializing `manifest`. -/
def cleanUnzipEnv (imagePath : String) (manifest : Manifest)
    (unTar : String → String → Option GoErr) : UnzipEnv :=
  { policyErr := none, policyCtxErr := none, createDirErr := none, parseDestErr := none,
    dbGetResult := .ok imagePath, parseSrcErr := none, copyErr := none,
    readManifestErr := none, unmarshalResult := .ok manifest, unTar := unTar }

/-- Claim C7: when the manifest contains a layer whose media type is not the
gzip-compressed Docker schema-2 layer type (the first such layer sitting after `pre`
supported layers that extract cleanly), `UnzipImage` fails with the descriptive error
naming the image, the layer digest and the media type, and extracts neither that layer nor
any later one — no skip, no partial fallback. -/
theorem unzipImage_unsupported_layer_fatal (image workdir imagePath : String)
    (unTar : String → String → Option GoErr) (pre post : List Descriptor) (bad : Descriptor)
    (hpre : ∀ l ∈ pre, l.mediaType = mediaTypeDockerSchema2LayerGzip ∧
      unTar (getLayerFilePath (getImageWorkDir workdir) l.digest)
        (containerWorkDir workdir) = none)
    (hbad : bad.mediaType ≠ mediaTypeDockerSchema2LayerGzip) :
    ImageManager.UnzipImage (cleanUnzipEnv imagePath ⟨pre ++ bad :: post⟩ unTar) image workdir
      = (some { msg := "unsupport image " ++ image ++ " layer " ++ bad.digest.encoded ++
          " media type:" ++ bad.mediaType },
         pre.map fun l => getLayerFilePath (getImageWorkDir workdir) l.digest) := by
  show unzipLayers image (getImageWorkDir workdir) workdir unTar (pre ++ bad :: post) = _
  induction pre with
  | nil => simp [unzipLayers, hbad]
  | cons a as ih =>
    have ha := hpre a (by simp)
    have hrest : ∀ l ∈ as, l.mediaType = mediaTypeDockerSchema2LayerGzip ∧
        unTar (getLayerFilePath (getImageWorkDir workdir) l.digest)
          (containerWorkDir workdir) = none := by
      intro l hl
      exact hpre l (by simp [hl])
    simp [unzipLayers, ha.1, ha.2, ih hrest]

def exampleGoodLayer : Descriptor :=
  { mediaType := mediaTypeDockerSchema2LayerGzip,
    digest := { algorithm := "sha256", hex := "aaa" } }

def exampleBadLayer : Descriptor :=
  { mediaType := "application/vnd.oci.image.layer.v1.tar",
    digest := { algorithm := "sha256", hex := "bbb" } }

def unTarAllOk : String → String → Option GoErr := fun _ _ => none

/-- Witness for C7: a two-layer manifest whose second layer has an unsupported media type
fails with the descriptive error after extracting only the first layer. -/
theorem unzipImage_unsupported_layer_fatal_witness :
    ImageManager.UnzipImage
      (cleanUnzipEnv "docker-archive:/cache/images/registry-example-v1.tar.gz"
        ⟨[exampleGoodLayer, exampleBadLayer]⟩ unTarAllOk) "docker://registry/example:v1" "/w"
      = (some { msg := "unsupport image docker://registry/example:v1 layer bbb media " ++
          "type:application/vnd.oci.image.layer.v1.tar" },
         ["/w/image/aaa"]) := by
  have h := unzipImage_unsupported_layer_fatal "docker://registry/example:v1" "/w"
    "docker-archive:/cache/images/registry-example-v1.tar.gz" unTarAllOk
    [exampleGoodLayer] [] exampleBadLayer
    (by
      intro l hl
      rw [List.mem_singleton] at hl
      rw [hl]
      exact ⟨rfl, rfl⟩)
    (by decide)
  simpa using h

/-! ## Concurrent PullImage: the dedup protocol (image_manager.go:122-145)

An interleaving model of the `goto check` loop shared by concurrent `PullImage` callers:
each goroutine atomically (a) checks `m.imageDb.Has` (line 124), (b) checks
`m.pulling.Load` (line 130) and either starts waiting on the found session's channel or
moves on, (c) executes `m.pulling.LoadOrStore(name, pulling)` (line 143) — whose `loaded`
result the code discards, so the goroutine proceeds to pull even when another goroutine's
session was already stored —, (d) performs the network copy, (e) `Put`s the record, and
(f) runs the deferred `close(pulling.ch)` / `m.pulling.Delete(name)` cleanup. Copies are
modelled as succeeding; a scheduler chooses which goroutine steps next. -/

/-- Program counter of one goroutine inside `PullImage`'s check/pull loop. -/
inductive GoPC
  | checkCache
  | checkPulling
  | waiting (owner : Nat)
  | loadOrStore
  | copyStep
  | putStep
  | cleanup
  | done (ok : Bool)
deriving DecidableEq, Repr

/-- Shared state of the `ImageManager` plus each goroutine's program counter. -/
structure PullWorld where
  /-- References present in the KV store (`imageDb`). -/
  db : List String
  /-- The `m.pulling` map: reference to the goroutine whose session is stored. -/
  sessions : List (String × Nat)
  /-- Goroutines whose session channel has been closed (broadcast fired). -/
  closedCh : List Nat
  /-- Number of `cc.Image` network copies performed so far. -/
  copies : Nat
  /-- Program counter of each goroutine. -/
  procs : List GoPC
deriving DecidableEq, Repr

def lookupSession (ss : List (String × Nat)) (n : String) : Option Nat :=
  match ss.find? (fun p => p.1 == n) with
  | some p => some p.2
  | none => none

def setPC (w : PullWorld) (i : Nat) (pc : GoPC) : PullWorld :=
  { w with procs := w.procs.set i pc }

/-- One atomic step of goroutine `i`, which is pulling reference `refs[i]`. A goroutine
waiting on a session whose channel is still open does not move. -/
def pullStep (refs : List String) (w : PullWorld) (i : Nat) : PullWorld :=
  match w.procs.get? i, refs.get? i with
  | some pc, some name =>
    match pc with
    | .checkCache =>
      if w.db.contains name then setPC w i (.done true) else setPC w i .checkPulling
    | .checkPulling =>
      match lookupSession w.sessions name with
      | some owner => setPC w i (.waiting owner)
      | none => setPC w i .loadOrStore
    | .waiting owner =>
      if w.closedCh.contains owner then setPC w i .checkCache else w
    | .loadOrStore =>
      -- sync.Map.LoadOrStore stores only when the key is absent; the code discards the
      -- loaded flag and falls through to the pull either way (image_manager.go:143)
      let ss := if (lookupSession w.sessions name).isSome then w.sessions
                else (name, i) :: w.sessions
      setPC { w with sessions := ss } i .copyStep
    | .copyStep => setPC { w with copies := w.copies + 1 } i .putStep
    | .putStep => setPC { w with db := name :: w.db } i .cleanup
    | .cleanup =>
      -- deferred `m.pulling.Delete(name)` then `close(pulling.ch)` (LIFO defers)
      setPC { w with sessions := w.sessions.filter (fun p => p.1 != name),
                     closedCh := i :: w.closedCh } i (.done true)
    | .done _ => w
  | _, _ => w

def runPulls (refs : List String) : PullWorld → List Nat → PullWorld
  | w, [] => w
  | w, i :: rest => runPulls refs (pullStep refs w i) rest

def initPullWorld (n : Nat) : PullWorld :=
  { db := [], sessions := [], closedCh := [], copies := 0,
    procs := List.replicate n .checkCache }

/-- Two goroutines pulling the same reference. -/
def raceRefs : List String := ["docker://registry/example:v1", "docker://registry/example:v1"]

/-- A lockstep schedule: both goroutines pass the cache check and the session check before
either executes `LoadOrStore`. -/
def raceSchedule : List Nat := [0, 1, 0, 1, 0, 1, 0, 1, 0, 1, 0, 1]

/-- Claim C1 (code bug, image_manager.go:143): the `loaded` result of
`m.pulling.LoadOrStore` is discarded, so under a lockstep interleaving of two concurrent
`PullImage` calls for the same reference both goroutines reach the copy — two network
copies are performed instead of the claimed exactly one, even though both calls return
success. -/
theorem pullImage_dedup_race :
    (runPulls raceRefs (initPullWorld 2) raceSchedule).copies = 2
    ∧ (runPulls raceRefs (initPullWorld 2) raceSchedule).procs =
        [.done true, .done true] := by
  constructor <;> rfl
